import Mathlib

/-!
Verification development for the we-share GraphQL backend (users, tweets,
follows, likes, comments over a Neo4j graph store).

The development shallowly embeds the data model and the service/resolver
operations that the checked properties talk about:

* TweetService (src/unnamed/part_002): createTweet, fetchTweet, listTweets,
  listUserTweets, likeTweet, listLikedTweets, unlikeTweet, deleteTweet,
  commentOnTweet, listTimelineTweets, together with the private helpers
  safeParseDate and mapTweet.
* CommentService (src/src/services/comment.service.ts): getCommentsForTweet,
  likeComment, unlikeComment, together with mapComment.
* UserResolver.followUser (src/unnamed/part_001, lines 509-542).

The graph database state is embedded as explicit lists of nodes and edges;
every Cypher statement is translated clause by clause into list operations.
Node ids are server generated UUIDs and are unique in every reachable state,
so a MATCH on a node by its id is modelled by the first matching list entry
(the code itself only ever consumes records[0] of such matches).

JavaScript Date values and Neo4j temporal values are embedded as follows:
a JS Date is a validity flag plus an epoch-milliseconds timestamp (an
Invalid Date has the flag false); the host calendar arithmetic performed by
the Date constructor is abstracted by a monotone integer encoding of the
calendar fields, and Date.parse on a string is abstracted by carrying the
parse outcome (parseable flag and parsed timestamp) on the string value
itself, since the exact parse function lives in the host runtime.
-/

namespace WeShare

/-- A JavaScript Date value: valid is false for an Invalid Date (NaN time);
ms is the epoch-milliseconds timestamp, meaningful only when valid. -/
structure JsDate where
  valid : Bool
  ms : Int
deriving DecidableEq, Repr

/-- A date-typed property value as stored in the graph / delivered by the
driver.  nullVal is an absent property (undefined), dateVal a JS Date object,
native a Neo4j DateTime object carrying calendar fields, strVal a string
whose Date.parse outcome is carried explicitly (parseable flag and parsed
timestamp), because the parse function itself lives in the host runtime. -/
inductive StoreDate where
  | nullVal
  | dateVal (d : JsDate)
  | native (year month day hour minute second ms : Int)
  | strVal (parseable : Bool) (ts : Int)
deriving DecidableEq, Repr

/-- Abstraction of the calendar arithmetic done by the host Date
constructor on explicit fields: a monotone integer encoding of
(year, month, day, hour, minute, second, millisecond). -/
def encodeDate (y m d h mi s ms : Int) : Int :=
  (((((y * 12 + (m - 1)) * 31 + d) * 24 + h) * 60 + mi) * 60 + s) * 1000 + ms

/-- TweetService.safeParseDate (part_002 lines 37-57).  Falsy input yields
new Date() (the current time); a Date instance is returned unchanged; a
Neo4j DateTime (which always has truthy year/month/day Integer objects) is
converted field by field; otherwise Date.parse is attempted with a
current-time fallback when it yields NaN. -/
def safeParseDate (now : Int) : StoreDate → JsDate
  | .nullVal => ⟨true, now⟩
  | .dateVal d => d
  | .native y m d h mi s ms => ⟨true, encodeDate y m d h mi s ms⟩
  | .strVal p ts => if p then ⟨true, ts⟩ else ⟨true, now⟩

/-- Behaviour of the raw JS Date constructor, new Date(x), as used directly
by the list-mapping code paths (listTweets and friends).  An undefined
property gives an Invalid Date; a Date instance is copied; a Neo4j DateTime
coerces through its ISO string form to the same abstract instant; a string
parses to its timestamp or to an Invalid Date. -/
def jsNewDate : StoreDate → JsDate
  | .nullVal => ⟨false, 0⟩
  | .dateVal d => d
  | .native y m d h mi s ms => ⟨true, encodeDate y m d h mi s ms⟩
  | .strVal p ts => if p then ⟨true, ts⟩ else ⟨false, 0⟩

/-- Comparison key used to model the ORDER BY ... DESC clauses: the abstract
instant of the stored temporal value. -/
def storeDateKey (sd : StoreDate) : Int := (jsNewDate sd).ms

/-- Value produced by the Cypher datetime() function at the given clock
reading: a store-native DateTime whose abstract instant is the clock.  The
calendar decomposition is abstracted by placing the clock in the sub-second
field, so that encodeDate recovers the clock. -/
def nowDateTime (clock : Int) : StoreDate := .native 0 1 0 0 0 0 clock

/-- A User node with its stored properties (optional properties that the
mapping code defaults are Options). -/
structure UserNode where
  id : String
  username : String
  name : String
  email : Option String
  bio : Option String
  pfp : Option String
  coverPhoto : Option String
  isVerified : Option Bool
  createdAt : StoreDate
  updatedAt : StoreDate
deriving DecidableEq, Repr

/-- A Tweet node with its stored properties.  createTweet stores no counter
properties, so the counters are Options; isLiked mirrors the service-side
optional property on the record shape (never stored by any query here). -/
structure TweetNode where
  id : String
  text : String
  media : Option (List String)
  authorId : String
  likesCount : Option Int
  commentsCount : Option Int
  retweetsCount : Option Int
  isLiked : Option Bool
  createdAt : StoreDate
  updatedAt : StoreDate
deriving DecidableEq, Repr

/-- A Comment node.  TweetService.commentOnTweet stores no tweetId property
while CommentService.createComment does, hence the Option; likesCount and
isLiked mirror the optional record-shape properties. -/
structure CommentNode where
  id : String
  text : String
  authorId : String
  tweetId : Option String
  likesCount : Option Int
  isLiked : Option Bool
  createdAt : StoreDate
  updatedAt : StoreDate
deriving DecidableEq, Repr

/-- A LIKES_TWEET relationship, which carries a createdAt timestamp
(used by the ORDER BY of listLikedTweets). -/
structure LikeEdge where
  userId : String
  tweetId : String
  createdAt : StoreDate
deriving DecidableEq, Repr

/-- The graph database state: node lists plus one list per relationship
type, each entry one edge instance.  POSTED edges are (user id, content id),
FOLLOWS edges (follower id, target id), LIKES_COMMENT edges
(user id, comment id), COMMENTS_ON edges (comment id, tweet id); the FOLLOWS
creation timestamp is not modelled since no read path consumes it.  The
field now is the clock read by datetime() and new Date(); fresh feeds
randomUUID(). -/
structure GraphState where
  users : List UserNode
  tweets : List TweetNode
  comments : List CommentNode
  posted : List (String × String)
  follows : List (String × String)
  likesTweet : List LikeEdge
  likesComment : List (String × String)
  commentsOn : List (String × String)
  now : Int
  fresh : Nat
deriving DecidableEq, Repr

/-- Value of randomUUID() for the n-th fresh draw. -/
def uuid (n : Nat) : String := "uuid-" ++ toString n

/-- Boolean membership of a pair in an edge list. -/
def pairMem (l : List (String × String)) (p : String × String) : Bool :=
  l.any (fun q => decide (q = p))

/-- MATCH (u:User -x7bid: $idx7d) succeeds iff a User node with the id exists.
(The escapes above stand for braces in the Cypher text.) -/
def userExists (s : GraphState) (id : String) : Bool :=
  s.users.any (fun u => decide (u.id = id))

/-- MATCH on a Tweet node by id. -/
def tweetExists (s : GraphState) (id : String) : Bool :=
  s.tweets.any (fun t => decide (t.id = id))

/-- MATCH on a Comment node by id. -/
def commentExists (s : GraphState) (id : String) : Bool :=
  s.comments.any (fun c => decide (c.id = id))

/-- First User node with the given (unique) id. -/
def usersFindById (s : GraphState) (id : String) : Option UserNode :=
  s.users.find? (fun u => decide (u.id = id))

/-- First Tweet node with the given (unique) id. -/
def tweetsFindById (s : GraphState) (id : String) : Option TweetNode :=
  s.tweets.find? (fun t => decide (t.id = id))

/-- An error value thrown by the service / resolver code: a plain JS Error,
an ApolloError with a message and a code, or an ApolloError additionally
wrapping an originalError in its extensions (a constructor call without a
code defaults the code to INTERNAL_SERVER_ERROR). -/
inductive JsErr where
  | plain (msg : String)
  | apollo (msg : String) (code : String)
  | apolloWrap (msg : String) (code : String) (original : JsErr)
deriving DecidableEq, Repr

/-- Code of the error as surfaced to the API caller (the extensions code of
the thrown ApolloError). -/
def JsErr.topCode : JsErr → String
  | .plain _ => ""
  | .apollo _ c => c
  | .apolloWrap _ c _ => c

/-- Wrapping performed by TweetService.withSession on any error thrown
inside the session callback (part_002 lines 87-99). -/
def dbWrap (e : JsErr) : JsErr :=
  .apolloWrap "Failed to execute database operation" "DATABASE_ERROR" e

/-- Author summary embedded in a returned tweet.  Fields that a given
mapping path leaves undefined are none. -/
structure UserSummary where
  id : String
  username : String
  name : String
  email : Option String
  bio : Option String
  pfp : Option String
  coverPhoto : Option String
  isVerified : Option Bool
  createdAt : JsDate
  updatedAt : JsDate
deriving DecidableEq, Repr

/-- A tweet as returned to the API layer.  The counter and isLiked fields
are none on the code paths that never set them (the inline list mappers). -/
structure TweetOut where
  id : String
  text : String
  media : List String
  authorId : String
  createdAt : JsDate
  updatedAt : JsDate
  likesCount : Option Int
  commentsCount : Option Int
  retweetsCount : Option Int
  isLiked : Option Bool
  author : UserSummary
deriving DecidableEq, Repr

/-- Default profile image URL used by the mappers. -/
def defaultPfp : String := "https://i.imgur.com/HeIi0wU.png"

/-- TweetService.mapTweet (part_002 lines 59-85): normalizes every date
field through safeParseDate and defaults the counters and isLiked. -/
def mapTweet (now : Int) (t : TweetNode) (u : UserNode) : TweetOut :=
  { id := t.id
    text := t.text
    media := t.media.getD []
    authorId := t.authorId
    createdAt := safeParseDate now t.createdAt
    updatedAt := safeParseDate now t.updatedAt
    likesCount := some (t.likesCount.getD 0)
    commentsCount := some (t.commentsCount.getD 0)
    retweetsCount := some (t.retweetsCount.getD 0)
    isLiked := some (t.isLiked.getD false)
    author :=
      { id := u.id
        username := u.username
        name := u.name
        email := some (u.email.getD "")
        bio := some (u.bio.getD "")
        pfp := some (u.pfp.getD defaultPfp)
        coverPhoto := some (u.coverPhoto.getD "")
        isVerified := some (u.isVerified.getD false)
        createdAt := safeParseDate now u.createdAt
        updatedAt := safeParseDate now u.updatedAt } }

/-- Inline record literal shared by listTweets, listUserTweets,
listLikedTweets and listTimelineTweets (part_002, e.g. lines 179-196):
raw new Date construction on the date fields, authorId taken from the
author node, and no counter or isLiked fields. -/
def listTweetRecord (row : TweetNode × UserNode) : TweetOut :=
  { id := row.1.id
    text := row.1.text
    media := row.1.media.getD []
    authorId := row.2.id
    createdAt := jsNewDate row.1.createdAt
    updatedAt := jsNewDate row.1.updatedAt
    likesCount := none
    commentsCount := none
    retweetsCount := none
    isLiked := none
    author :=
      { id := row.2.id
        username := row.2.username
        name := row.2.name
        email := row.2.email
        bio := some (row.2.bio.getD "")
        pfp := some (row.2.pfp.getD defaultPfp)
        coverPhoto := none
        isVerified := none
        createdAt := jsNewDate row.2.createdAt
        updatedAt := jsNewDate row.2.updatedAt } }

/-- Insertion sort by an integer key, descending: the embedding of
ORDER BY key DESC. -/
def sortByKeyDesc (key : α → Int) (l : List α) : List α :=
  List.insertionSort (fun a b => key b ≤ key a) l

/-- Rows of MATCH (t:Tweet)<-[:POSTED]-(u:User): one row per POSTED edge
instance joined to the Tweet and User nodes it connects. -/
def postedRows (s : GraphState) : List (TweetNode × UserNode) :=
  s.posted.flatMap (fun e =>
    (s.tweets.filter (fun t => decide (t.id = e.2))).flatMap (fun t =>
      (s.users.filter (fun u => decide (u.id = e.1))).map (fun u => (t, u))))

/-- Input shape of the likeTweet mutation. -/
structure LikeTweetInput where
  tweetId : String
deriving DecidableEq, Repr

/-- Input shape of the unlikeTweet mutation. -/
structure UnlikeTweetInput where
  tweetId : String
deriving DecidableEq, Repr

/-- The JS String trim method: strips leading and trailing whitespace. -/
def jsTrim (s : String) : String :=
  String.mk (((s.data.dropWhile Char.isWhitespace).reverse.dropWhile
    Char.isWhitespace).reverse)

/-- TweetService.createTweet (part_002 lines 101-140).  Whitespace-only text
is rejected with INVALID_INPUT before any session is opened; the MATCH on
the author failing produces zero records, so the inner TWEET_CREATION_ERROR
is thrown and then wrapped by withSession; otherwise the Tweet node and the
POSTED edge are created in one write transaction and the created record is
returned through mapTweet.  Note that no counter properties are stored on
the new node. -/
def createTweet (text : String) (media : List String) (authorId : String)
    (s : GraphState) : Except JsErr TweetOut × GraphState :=
  if jsTrim text = "" then
    (.error (.apollo "Tweet text cannot be empty" "INVALID_INPUT"), s)
  else
    match usersFindById s authorId with
    | none =>
        (.error (dbWrap (.apollo "Failed to create tweet" "TWEET_CREATION_ERROR")), s)
    | some u =>
        let t : TweetNode :=
          { id := uuid s.fresh
            text := text
            media := some media
            authorId := authorId
            likesCount := none
            commentsCount := none
            retweetsCount := none
            isLiked := none
            createdAt := nowDateTime s.now
            updatedAt := nowDateTime s.now }
        (.ok (mapTweet s.now t u),
         { s with
            tweets := t :: s.tweets
            posted := (authorId, t.id) :: s.posted
            fresh := s.fresh + 1 })

/-- TweetService.fetchTweet (part_002 lines 142-161): the tweet joined with
its author through the POSTED edge, mapped by mapTweet; null when the tweet
or the edge is missing.  Only records[0] is consumed. -/
def fetchTweet (id : String) (s : GraphState) : Option TweetOut :=
  (tweetsFindById s id).bind (fun t =>
    (s.users.find? (fun u => pairMem s.posted (u.id, t.id))).map (fun u => mapTweet s.now t u))

/-- TweetService.listTweets (part_002 lines 165-199): every POSTED row,
ordered by tweet creation time descending, mapped by the inline record
literal (raw new Date calls, no counters). -/
def listTweets (s : GraphState) : List TweetOut :=
  (sortByKeyDesc (fun r => storeDateKey r.1.createdAt) (postedRows s)).map listTweetRecord

/-- TweetService.listUserTweets (part_002 lines 201-236): POSTED rows
restricted to the given author, same ordering and record shape as
listTweets. -/
def listUserTweets (userId : String) (s : GraphState) : List TweetOut :=
  let rows :=
    (s.users.filter (fun u => decide (u.id = userId))).flatMap (fun u =>
      (s.posted.filter (fun e => decide (e.1 = userId))).flatMap (fun e =>
        (s.tweets.filter (fun t => decide (t.id = e.2))).map (fun t => (t, u))))
  (sortByKeyDesc (fun r => storeDateKey r.1.createdAt) rows).map listTweetRecord

/-- Rows of the existence check MATCH
(u:User)-[r:LIKES_TWEET]->(t:Tweet) with both endpoints bound by id. -/
def likesTweetEdgeRows (s : GraphState) (userId tweetId : String) : List LikeEdge :=
  if userExists s userId && tweetExists s tweetId then
    s.likesTweet.filter (fun e => decide (e.userId = userId) && decide (e.tweetId = tweetId))
  else []

/-- TweetService.likeTweet (part_002 lines 238-272).  If the LIKES_TWEET
edge already exists the transaction callback throws a plain Error, which
withSession wraps into the DATABASE_ERROR ApolloError; otherwise the edge is
created with a timestamp (silently skipped when the user or tweet node is
missing) and true is returned.  No counter property is touched on either
path. -/
def likeTweet (input : LikeTweetInput) (userId : String) (s : GraphState) :
    Except JsErr Bool × GraphState :=
  if (likesTweetEdgeRows s userId input.tweetId).length > 0 then
    (.error (dbWrap (.plain "Tweet already liked")), s)
  else if userExists s userId && tweetExists s input.tweetId then
    (.ok true,
     { s with likesTweet := ⟨userId, input.tweetId, nowDateTime s.now⟩ :: s.likesTweet })
  else
    (.ok true, s)

/-- Rows of MATCH (u:User)-[r:LIKES_TWEET]->(t:Tweet)<-[:POSTED]-(author),
with u bound by id, used by listLikedTweets. -/
def likedRows (s : GraphState) (userId : String) : List (LikeEdge × TweetNode × UserNode) :=
  (s.users.filter (fun u => decide (u.id = userId))).flatMap (fun _u =>
    (s.likesTweet.filter (fun e => decide (e.userId = userId))).flatMap (fun e =>
      (s.tweets.filter (fun t => decide (t.id = e.tweetId))).flatMap (fun t =>
        (s.posted.filter (fun pe => decide (pe.2 = t.id))).flatMap (fun pe =>
          (s.users.filter (fun a => decide (a.id = pe.1))).map (fun a => (e, t, a))))))

/-- TweetService.listLikedTweets (part_002 lines 274-309): tweets liked by
the user joined with their authors, ordered by the like timestamp
descending, same record shape as listTweets. -/
def listLikedTweets (userId : String) (s : GraphState) : List TweetOut :=
  (sortByKeyDesc (fun r => storeDateKey r.1.createdAt) (likedRows s userId)).map
    (fun r => listTweetRecord (r.2.1, r.2.2))

/-- TweetService.unlikeTweet (part_002 lines 311-327): deletes every
matching LIKES_TWEET edge (none need exist) and returns true
unconditionally; the catch branch is unreachable in the model. -/
def unlikeTweet (input : UnlikeTweetInput) (userId : String) (s : GraphState) :
    Except JsErr Bool × GraphState :=
  if userExists s userId && tweetExists s input.tweetId then
    (.ok true,
     { s with likesTweet := (s.likesTweet.filter
          (fun e => !(decide (e.userId = userId) && decide (e.tweetId = input.tweetId)))) })
  else
    (.ok true, s)

/-- TweetService.deleteTweet (part_002 lines 329-362): one transaction that
first deletes every incoming relationship of the tweet node (every
relationship type targeting a Tweet is incoming: POSTED, LIKES_TWEET,
COMMENTS_ON) and then deletes the node itself; when no node carries the id
both MATCH clauses produce no rows and the operation still returns true. -/
def deleteTweet (tweetId : String) (s : GraphState) : Except JsErr Bool × GraphState :=
  if tweetExists s tweetId then
    (.ok true,
     { s with
        posted := s.posted.filter (fun e => !decide (e.2 = tweetId))
        likesTweet := s.likesTweet.filter (fun e => !decide (e.tweetId = tweetId))
        commentsOn := s.commentsOn.filter (fun e => !decide (e.2 = tweetId))
        tweets := s.tweets.filter (fun t => !decide (t.id = tweetId)) })
  else
    (.ok true, s)

/-- The SET clause of the comment-count update statement of commentOnTweet:
every tweet carrying the id gets commentsCount set to COALESCE of the
stored property and 0, plus one. -/
def bumpCommentsCount (tweetId : String) (t : TweetNode) : TweetNode :=
  if t.id = tweetId then { t with commentsCount := some (t.commentsCount.getD 0 + 1) }
  else t

/-- TweetService.commentOnTweet (part_002 lines 415-467).  A missing tweet
makes the inner catch wrap the plain Error into COMMENT_CREATION_ERROR,
which withSession wraps again.  Otherwise one write transaction creates the
Comment node (without a tweetId property), the POSTED edge and the
COMMENTS_ON edge when author and tweet both match, and then increments the
commentsCount of every tweet carrying the id with a COALESCE to 0 for a
missing property; the updated tweet is finally re-fetched and returned. -/
def commentOnTweet (text : String) (authorId : String) (tweetId : String)
    (s : GraphState) : Except JsErr (Option TweetOut) × GraphState :=
  if (fetchTweet tweetId s).isSome = false then
      (.error (dbWrap (.apolloWrap "Failed to create comment" "COMMENT_CREATION_ERROR"
        (.plain "Tweet not found"))), s)
  else
      let s1 :=
        if userExists s authorId && tweetExists s tweetId then
          let c : CommentNode :=
            { id := uuid s.fresh
              text := text
              authorId := authorId
              tweetId := none
              likesCount := none
              isLiked := none
              createdAt := nowDateTime s.now
              updatedAt := nowDateTime s.now }
          { s with
             comments := c :: s.comments
             posted := (authorId, c.id) :: s.posted
             commentsOn := (c.id, tweetId) :: s.commentsOn
             fresh := s.fresh + 1 }
        else s
      let s2 := { s1 with tweets := s1.tweets.map (bumpCommentsCount tweetId) }
      (.ok (fetchTweet tweetId s2), s2)

/-- Rows produced by the two MATCH clauses of the timeline query of
listTimelineTweets (part_002 lines 469-508) before the WHERE filter: the
first MATCH binds one row per FOLLOWS edge leaving the user joined to the
followed User node (so a user that follows nobody produces no rows at all),
and the second MATCH crosses in every POSTED row.  Each row carries the
followed user, the tweet and its poster. -/
def timelineMatchRows (userId : String) (s : GraphState) :
    List (UserNode × TweetNode × UserNode) :=
  (s.users.filter (fun me => decide (me.id = userId))).flatMap (fun _me =>
    (s.follows.filter (fun e => decide (e.1 = userId))).flatMap (fun e =>
      (s.users.filter (fun f => decide (f.id = e.2))).flatMap (fun f =>
        (postedRows s).map (fun r => (f, r.1, r.2)))))

/-- The driver error raised when the WHERE clause of the timeline query is
evaluated: its first disjunct applies the Cypher list-membership operator
IN to following.id, a single String id, which is a runtime type error (the
exact driver message text is abstracted).  Cypher raises the error rather
than null-coercing a type mismatch in a predicate. -/
def cypherTypeErr : JsErr := .plain "Type mismatch: expected a list"

/-- TweetService.listTimelineTweets (part_002 lines 469-508).  When no row
reaches the WHERE clause (the user node is missing, the user follows
nobody, or no POSTED row exists) the query returns the empty row set; as
soon as at least one row reaches the WHERE clause, evaluating
poster.id IN following.id on the String id raises the runtime type error
and withSession wraps the failed statement as DATABASE_ERROR, so the
operation never returns any tweet of a followed user. -/
def listTimelineTweets (userId : String) (s : GraphState) :
    Except JsErr (List TweetOut) :=
  if timelineMatchRows userId s = [] then .ok []
  else .error (dbWrap cypherTypeErr)

/-- Author shape built by CommentService.mapComment from the User model. -/
structure CommentAuthorOut where
  id : String
  username : String
  name : String
  email : Option String
  pfp : String
  bio : String
deriving DecidableEq, Repr

/-- A comment as returned to the API layer. -/
structure CommentOut where
  id : String
  text : String
  authorId : String
  tweetId : Option String
  createdAt : JsDate
  updatedAt : JsDate
  isLiked : Option Bool
  likesCount : Int
  author : Option CommentAuthorOut
deriving DecidableEq, Repr

/-- CommentService.mapComment (comment.service.ts lines 38-65).  Dates go
through the instanceof-Date check followed by a raw new Date call, together
exactly the raw constructor behaviour; likesCount applies the JS disjunction
with 0, identical to a default of 0 on integer values; the tweetNode
parameter of the source is unused and therefore dropped. -/
def mapComment (c : CommentNode) (author : Option UserNode) : CommentOut :=
  { id := c.id
    text := c.text
    authorId := c.authorId
    tweetId := c.tweetId
    createdAt := jsNewDate c.createdAt
    updatedAt := jsNewDate c.updatedAt
    isLiked := c.isLiked
    likesCount := c.likesCount.getD 0
    author := author.map (fun u =>
      { id := u.id
        username := u.username
        name := u.name
        email := u.email
        pfp := u.pfp.getD ""
        bio := u.bio.getD "" }) }

/-- Number of LIKES_COMMENT edge instances into the given comment whose
source is an existing User node: the count(DISTINCT l) aggregate of
getCommentsForTweet (distinct relationship instances). -/
def commentLikeCount (s : GraphState) (commentId : String) : Int :=
  ((s.likesComment.filter (fun e => decide (e.2 = commentId) && userExists s e.1)).length : Int)

/-- Rows of the two MATCH clauses of getCommentsForTweet
(comment.service.ts lines 102-131) before aggregation: comments on the
tweet joined with their authors. -/
def commentRows (s : GraphState) (tweetId : String) : List (CommentNode × UserNode) :=
  (s.commentsOn.filter (fun e => decide (e.2 = tweetId))).flatMap (fun e =>
    (s.comments.filter (fun c => decide (c.id = e.1))).flatMap (fun c =>
      (s.tweets.filter (fun t => decide (t.id = tweetId))).flatMap (fun _t =>
        (s.posted.filter (fun pe => decide (pe.2 = c.id))).flatMap (fun pe =>
          (s.users.filter (fun u => decide (u.id = pe.1))).map (fun u => (c, u))))))

/-- CommentService.getCommentsForTweet (comment.service.ts lines 102-131):
the aggregation groups rows by the returned node bindings (modelled by
dedup), computes likesCount as count(DISTINCT l) over LIKES_COMMENT edges
into the comment, computes isLiked as an edge-existence test for the
optional viewer, and maps through mapComment with the computed fields
spread over the raw node properties. -/
def getCommentsForTweet (tweetId : String) (viewer : Option String) (s : GraphState) :
    List CommentOut :=
  (commentRows s tweetId).dedup.map (fun r =>
    let likeCount := commentLikeCount s r.1.id
    let isLiked : Bool :=
      match viewer with
      | some v => userExists s v && pairMem s.likesComment (v, r.1.id)
      | none => false
    mapComment { r.1 with likesCount := some likeCount, isLiked := some isLiked } (some r.2))

/-- CommentService.likeComment (comment.service.ts lines 133-161): returns
false without touching the graph when the LIKES_COMMENT edge already
exists; otherwise creates the edge (silently skipped when the user or
comment node is missing) and returns true.  No likesCount property is ever
written. -/
def likeComment (commentId : String) (userId : String) (s : GraphState) :
    Except JsErr Bool × GraphState :=
  if userExists s userId && commentExists s commentId &&
      pairMem s.likesComment (userId, commentId) then
    (.ok false, s)
  else if userExists s userId && commentExists s commentId then
    (.ok true, { s with likesComment := (userId, commentId) :: s.likesComment })
  else
    (.ok true, s)

/-- CommentService.unlikeComment (comment.service.ts lines 163-191):
returns false without touching the graph when no LIKES_COMMENT edge exists;
otherwise deletes every matching edge and returns true. -/
def unlikeComment (commentId : String) (userId : String) (s : GraphState) :
    Except JsErr Bool × GraphState :=
  if userExists s userId && commentExists s commentId &&
      pairMem s.likesComment (userId, commentId) then
    (.ok true,
     { s with likesComment :=
        s.likesComment.filter (fun e => !decide (e = (userId, commentId))) })
  else
    (.ok false, s)

/-- Modelled from the spec: UserService.getFollowings (user.service.ts is
not under src; spec section 4.2, listFollowings returns the users the given
user follows). -/
def getFollowings (userId : String) (s : GraphState) : List UserNode :=
  s.users.filter (fun u => pairMem s.follows (userId, u.id))

/-- Modelled from the spec: UserService.followUser (user.service.ts is not
under src; spec section 4.2, follow creates the FOLLOWS edge; the creation
timestamp is not modelled since no checked property reads it). -/
def userServiceFollowUser (targetId : String) (followerId : String) (s : GraphState) :
    GraphState :=
  { s with follows := (followerId, targetId) :: s.follows }

/-- Input shape of the followUser mutation. -/
structure FollowUserInput where
  targetUserId : String
deriving DecidableEq, Repr

/-- UserResolver.followUser (part_001 lines 509-542).  The catch block
re-wraps every error thrown in the try body, including the self-follow
ApolloError with code INVALID_OPERATION, into a FOLLOW_ERROR ApolloError
that carries the inner error only as its originalError extension. -/
def followUserResolver (ctxUserId : Option String) (input : FollowUserInput)
    (s : GraphState) : Except JsErr Bool × GraphState :=
  match ctxUserId with
  | none =>
      (.error (.apolloWrap "Failed to follow user" "FOLLOW_ERROR"
        (.apollo "Authentication required" "UNAUTHORIZED")), s)
  | some userId =>
      if userId = input.targetUserId then
        (.error (.apolloWrap "Failed to follow user" "FOLLOW_ERROR"
          (.apollo "Cannot follow yourself" "INVALID_OPERATION")), s)
      else if (getFollowings userId s).any (fun f => decide (f.id = input.targetUserId)) then
        (.error (.apolloWrap "Failed to follow user" "FOLLOW_ERROR"
          (.apollo "Already following this user" "ALREADY_FOLLOWING")), s)
      else
        (.ok true, userServiceFollowUser input.targetUserId userId s)

/-! Helper lemmas about the query building blocks. -/

theorem pairMem_iff (l : List (String × String)) (p : String × String) :
    pairMem l p = true ↔ p ∈ l := by
  simp [pairMem, List.any_eq_true]

theorem userExists_iff (s : GraphState) (id : String) :
    userExists s id = true ↔ ∃ u ∈ s.users, u.id = id := by
  simp [userExists, List.any_eq_true]

theorem tweetExists_iff (s : GraphState) (id : String) :
    tweetExists s id = true ↔ ∃ t ∈ s.tweets, t.id = id := by
  simp [tweetExists, List.any_eq_true]

theorem find?_ext (p q : α → Bool) (h : ∀ x, p x = q x) (l : List α) :
    l.find? p = l.find? q := by
  induction l with
  | nil => rfl
  | cons a l ih =>
    simp only [List.find?]
    rw [h a]
    cases q a <;> simp [ih]

theorem sortByKeyDesc_perm (key : α → Int) (l : List α) :
    List.Perm (sortByKeyDesc key l) l :=
  List.perm_insertionSort _ l

theorem mem_sortByKeyDesc (key : α → Int) (l : List α) (a : α) :
    a ∈ sortByKeyDesc key l ↔ a ∈ l :=
  (sortByKeyDesc_perm key l).mem_iff

theorem mem_postedRows {s : GraphState} {t : TweetNode} {u : UserNode} :
    (t, u) ∈ postedRows s ↔ t ∈ s.tweets ∧ u ∈ s.users ∧ (u.id, t.id) ∈ s.posted := by
  simp only [postedRows, List.mem_flatMap, List.mem_filter, List.mem_map,
    decide_eq_true_eq, Prod.mk.injEq]
  constructor
  · rintro ⟨e, he, t', ⟨ht', hid⟩, u', ⟨hu', huid⟩, rfl, rfl⟩
    refine ⟨ht', hu', ?_⟩
    rw [huid, hid]
    exact he
  · rintro ⟨ht, hu, hp⟩
    exact ⟨(u.id, t.id), hp, t, ⟨ht, rfl⟩, u, ⟨hu, rfl⟩, rfl, rfl⟩

/-! Concrete fixture states used by the closed witness and counterexample
theorems. -/

/-- The empty graph at clock 1000 with the fresh-id counter at 0. -/
def emptyState : GraphState :=
  { users := [], tweets := [], comments := [], posted := [], follows := [],
    likesTweet := [], likesComment := [], commentsOn := [], now := 1000, fresh := 0 }

/-- A User node with only the required properties stored. -/
def mkUser (id : String) : UserNode :=
  { id := id, username := id, name := id, email := none, bio := none, pfp := none,
    coverPhoto := none, isVerified := none,
    createdAt := nowDateTime 10, updatedAt := nowDateTime 10 }

/-- A Tweet node as createTweet stores it (no counter properties). -/
def mkTweet (id author : String) (created : Int) : TweetNode :=
  { id := id, text := "hello", media := some [], authorId := author, likesCount := none,
    commentsCount := none, retweetsCount := none, isLiked := none,
    createdAt := nowDateTime created, updatedAt := nowDateTime created }

/-- A Comment node as TweetService.commentOnTweet stores it. -/
def mkComment (id author : String) : CommentNode :=
  { id := id, text := "nice", authorId := author, tweetId := none, likesCount := none,
    isLiked := none, createdAt := nowDateTime 20, updatedAt := nowDateTime 20 }

/-- The pre-WHERE timeline row set is nonempty exactly when the user node
exists, the user follows at least one existing user, and at least one
POSTED row exists. -/
theorem timelineMatchRows_ne_nil (userId : String) (s : GraphState) :
    timelineMatchRows userId s ≠ [] ↔
      (∃ me ∈ s.users, me.id = userId) ∧
      (∃ fe ∈ s.follows, fe.1 = userId ∧ ∃ f ∈ s.users, f.id = fe.2) ∧
      (∃ t p, t ∈ s.tweets ∧ p ∈ s.users ∧ (p.id, t.id) ∈ s.posted) := by
  constructor
  · intro h
    obtain ⟨x, hx⟩ := List.exists_mem_of_ne_nil _ h
    simp only [timelineMatchRows, List.mem_flatMap, List.mem_filter, List.mem_map,
      decide_eq_true_eq] at hx
    obtain ⟨me, ⟨hme, hmeid⟩, fe, ⟨hfe, hfe1⟩, f, ⟨hf, hfid⟩, r, hr, heq⟩ := hx
    obtain ⟨ht, hu, hp⟩ := mem_postedRows.mp (show (r.1, r.2) ∈ postedRows s from hr)
    exact ⟨⟨me, hme, hmeid⟩, ⟨fe, hfe, hfe1, f, hf, hfid⟩, r.1, r.2, ht, hu, hp⟩
  · rintro ⟨⟨me, hme, hmeid⟩, ⟨fe, hfe, hfe1, f, hf, hfid⟩, t, p, ht, hu, hp⟩
    apply List.ne_nil_of_mem (a := (f, t, p))
    simp only [timelineMatchRows, List.mem_flatMap, List.mem_filter, List.mem_map,
      decide_eq_true_eq]
    exact ⟨me, ⟨hme, hmeid⟩, fe, ⟨hfe, hfe1⟩, f, ⟨hf, hfid⟩, (t, p),
      mem_postedRows.mpr ⟨ht, hu, hp⟩, rfl⟩

/-- State for the C1 counterexample, first half: user a authored one tweet
and follows nobody. -/
def stateC1 : GraphState :=
  { emptyState with
     users := [mkUser "a"], tweets := [mkTweet "ta" "a" 5], posted := [("a", "ta")] }

/-- State for the C1 counterexample, second half: a follows b and b
authored one tweet. -/
def stateC1b : GraphState :=
  { emptyState with
     users := [mkUser "a", mkUser "b"], tweets := [mkTweet "tb" "b" 5],
     posted := [("b", "tb")], follows := [("a", "b")] }

/-- C1, counterexample: the claim states that listTimelineTweets(U) returns
exactly the tweets authored by U or by users U follows, and that after
follow(A, B) the timeline of A includes B's tweets.  Both parts fail.
User a, who authored one tweet (listUserTweets returns it) and follows
nobody, gets an empty timeline, because the first MATCH requires a FOLLOWS
edge.  And after a follows b, with b having posted one tweet, the timeline
of a is a DATABASE_ERROR failure, not a list containing b's tweet, because
the WHERE clause applies the list-membership operator IN to the single
String id bound per row, a runtime type error. -/
theorem c1_counterexample :
    (listTimelineTweets "a" stateC1 = .ok [] ∧
      (listUserTweets "a" stateC1).length = 1) ∧
    (listTimelineTweets "a" stateC1b = .error (dbWrap cypherTypeErr) ∧
      (listUserTweets "b" stateC1b).length = 1) := by
  refine ⟨⟨rfl, rfl⟩, ⟨rfl, rfl⟩⟩

/-- C1 (amended): listTimelineTweets never returns a tweet.  It fails with
the withSession DATABASE_ERROR wrap of the runtime type error exactly when
the user node exists, the user follows at least one existing user and at
least one POSTED row exists (at least one row then reaches the WHERE
clause, whose IN operator is applied to a single String id); in every
other case it returns the empty list.  In particular after follow(A, B)
with B having posted, listTimeline(A) is an error rather than a list
containing B's tweets, and a user that follows nobody gets an empty
timeline, own tweets included. -/
theorem c1_timeline_no_tweets (userId : String) (s : GraphState) :
    (listTimelineTweets userId s = .ok [] ∨
     listTimelineTweets userId s = .error (dbWrap cypherTypeErr)) ∧
    (listTimelineTweets userId s = .error (dbWrap cypherTypeErr) ↔
      (∃ me ∈ s.users, me.id = userId) ∧
      (∃ fe ∈ s.follows, fe.1 = userId ∧ ∃ f ∈ s.users, f.id = fe.2) ∧
      (∃ t p, t ∈ s.tweets ∧ p ∈ s.users ∧ (p.id, t.id) ∈ s.posted)) := by
  have hiff := timelineMatchRows_ne_nil userId s
  by_cases h : timelineMatchRows userId s = []
  · have hok : listTimelineTweets userId s = .ok [] := by
      simp [listTimelineTweets, h]
    refine ⟨Or.inl hok, ?_⟩
    rw [hok]
    constructor
    · intro hco
      exact Except.noConfusion hco
    · intro hrhs
      exact absurd h (hiff.mpr hrhs)
  · have herr : listTimelineTweets userId s = .error (dbWrap cypherTypeErr) := by
      simp [listTimelineTweets, h]
    refine ⟨Or.inr herr, ?_⟩
    constructor
    · intro _
      exact hiff.mp h
    · intro _
      exact herr

/-- C1, witness: in the concrete follow(a, b) state the error case of the
amended theorem fires. -/
theorem c1_witness :
    listTimelineTweets "a" stateC1b = .error (dbWrap cypherTypeErr) :=
  ((c1_timeline_no_tweets "a" stateC1b).2).mpr
    ⟨⟨mkUser "a", by decide, rfl⟩,
     ⟨("a", "b"), by decide, rfl, mkUser "b", by decide, rfl⟩,
     ⟨mkTweet "tb" "b" 5, mkUser "b", by decide, by decide, by decide⟩⟩

/-- State for C2: one user, one tweet by that user, no likes yet. -/
def stateC2 : GraphState :=
  { emptyState with
     users := [mkUser "u1"], tweets := [mkTweet "t1" "u1" 5], posted := [("u1", "t1")] }

/-- C2: evaluation of the failing scenario.  User u1 likes the previously
unliked tweet t1: the mutation succeeds and creates the LIKES_TWEET edge,
yet fetchTweet still reports likesCount 0 and isLiked false, because
likeTweet never updates the likesCount property and the fetchTweet query
takes no viewer and never computes isLiked.  The claim (and the spec
scenario) require likesCount 1 and isLiked true at this point. -/
theorem c2_like_not_reflected :
    (likeTweet ⟨"t1"⟩ "u1" stateC2).1 = .ok true ∧
    ((likeTweet ⟨"t1"⟩ "u1" stateC2).2).likesTweet.length = 1 ∧
    (fetchTweet "t1" (likeTweet ⟨"t1"⟩ "u1" stateC2).2).map
      (fun tw => (tw.likesCount, tw.isLiked)) = some (some 0, some false) := by
  refine ⟨rfl, rfl, rfl⟩

/-- The error value surfaced by followUser on a self-follow: the resolver
catch block wraps the INVALID_OPERATION ApolloError into a FOLLOW_ERROR
ApolloError. -/
def selfFollowErr : JsErr :=
  .apolloWrap "Failed to follow user" "FOLLOW_ERROR"
    (.apollo "Cannot follow yourself" "INVALID_OPERATION")

/-- State for C5: a single authenticated user. -/
def stateC5 : GraphState := { emptyState with users := [mkUser "u1"] }

/-- C5, counterexample: the claim states that self-follow fails with the
InvalidOperation error code visible to the caller; the call does fail and
creates no edge, but the error the caller sees carries top-level code
FOLLOW_ERROR, with the INVALID_OPERATION error only wrapped inside as
originalError. -/
theorem c5_counterexample :
    followUserResolver (some "u1") ⟨"u1"⟩ stateC5 = (.error selfFollowErr, stateC5) ∧
    selfFollowErr.topCode = "FOLLOW_ERROR" ∧
    selfFollowErr.topCode ≠ "INVALID_OPERATION" := by
  refine ⟨rfl, rfl, by decide⟩

/-- C5 (amended): for every authenticated caller, followUser with the
caller's own id as target always fails and creates no FOLLOWS edge (the
state is returned unchanged); the surfaced error has top-level code
FOLLOW_ERROR and wraps the Cannot-follow-yourself INVALID_OPERATION error
as its originalError. -/
theorem c5_self_follow_fails (uid : String) (s : GraphState) :
    followUserResolver (some uid) ⟨uid⟩ s = (.error selfFollowErr, s) ∧
    selfFollowErr.topCode = "FOLLOW_ERROR" := by
  refine ⟨?_, rfl⟩
  simp [followUserResolver, selfFollowErr]

/-- State for C3: user u authored tweet t and comment c and has already
liked both. -/
def stateC3 : GraphState :=
  { emptyState with
     users := [mkUser "u"], tweets := [mkTweet "t" "u" 5], comments := [mkComment "c" "u"],
     posted := [("u", "t"), ("u", "c")],
     likesTweet := [⟨"u", "t", nowDateTime 7⟩], likesComment := [("u", "c")] }

/-- C3: when the like edge already exists, likeTweet raises a hard error
(the transaction throws, and withSession surfaces the DATABASE_ERROR wrap)
while likeComment returns false as a silent no-success, and in neither case
does the graph change, so no second edge is created. -/
theorem c3_double_like_policy (s : GraphState) (uId tId cId : String)
    (hu : userExists s uId = true) (ht : tweetExists s tId = true)
    (hc : commentExists s cId = true)
    (he : ∃ e ∈ s.likesTweet, e.userId = uId ∧ e.tweetId = tId)
    (hce : (uId, cId) ∈ s.likesComment) :
    likeTweet ⟨tId⟩ uId s = (.error (dbWrap (.plain "Tweet already liked")), s) ∧
    likeComment cId uId s = (.ok false, s) := by
  constructor
  · have hrows : (likesTweetEdgeRows s uId tId).length > 0 := by
      obtain ⟨e, hmem, h1, h2⟩ := he
      have hcond : (userExists s uId && tweetExists s tId) = true := by
        rw [hu, ht]; rfl
      have hmemf : e ∈ likesTweetEdgeRows s uId tId := by
        unfold likesTweetEdgeRows
        rw [if_pos hcond]
        exact List.mem_filter.mpr ⟨hmem, by simp [h1, h2]⟩
      exact List.length_pos.mpr (List.ne_nil_of_mem hmemf)
    simp only [likeTweet]
    rw [if_pos hrows]
  · have hp : pairMem s.likesComment (uId, cId) = true := (pairMem_iff _ _).mpr hce
    simp only [likeComment]
    rw [if_pos (by rw [hu, hc, hp]; rfl)]

/-- C3, witness: the concrete double-like scenario. -/
theorem c3_witness :
    likeTweet ⟨"t"⟩ "u" stateC3 = (.error (dbWrap (.plain "Tweet already liked")), stateC3) ∧
    likeComment "c" "u" stateC3 = (.ok false, stateC3) :=
  c3_double_like_policy stateC3 "u" "t" "c" (by decide) (by decide) (by decide)
    ⟨⟨"u", "t", nowDateTime 7⟩, by decide, rfl, rfl⟩ (by decide)

/-- State for C4: user u authored tweet t and comment c and has liked
neither. -/
def stateC4 : GraphState :=
  { emptyState with
     users := [mkUser "u"], tweets := [mkTweet "t" "u" 5], comments := [mkComment "c" "u"],
     posted := [("u", "t"), ("u", "c")] }

/-- C4, counterexample: the claim states that unlike on a never-liked tweet
returns false; on the concrete never-liked tweet t, unlikeTweet returns
true (and leaves the state unchanged), so the claim as stated is false. -/
theorem c4_counterexample :
    stateC4.likesTweet = [] ∧ unlikeTweet ⟨"t"⟩ "u" stateC4 = (.ok true, stateC4) ∧
    (Except.ok true : Except JsErr Bool) ≠ .ok false := by
  refine ⟨rfl, rfl, by simp⟩

/-- C4 (amended): unlike on a never-liked target is a neutral no-op that
never errors and leaves the graph unchanged; TweetService.unlikeTweet
reports the no-op as true while CommentService.unlikeComment reports it as
false. -/
theorem c4_unlike_noop (s : GraphState) (uId tId cId : String)
    (ht : ∀ e ∈ s.likesTweet, ¬(e.userId = uId ∧ e.tweetId = tId))
    (hc : (uId, cId) ∉ s.likesComment) :
    unlikeTweet ⟨tId⟩ uId s = (.ok true, s) ∧ unlikeComment cId uId s = (.ok false, s) := by
  constructor
  · have hfil : s.likesTweet.filter
        (fun e => !(decide (e.userId = uId) && decide (e.tweetId = tId))) = s.likesTweet := by
      apply List.filter_eq_self.mpr
      intro e he
      rcases Decidable.em (e.userId = uId) with h1 | h1
      · have h2 : ¬e.tweetId = tId := fun h2 => ht e he ⟨h1, h2⟩
        simp [h1, h2]
      · simp [h1]
    simp only [unlikeTweet]
    split
    · rw [hfil]
    · rfl
  · have hp : pairMem s.likesComment (uId, cId) = false := by
      cases hpm : pairMem s.likesComment (uId, cId)
      · rfl
      · exact absurd ((pairMem_iff _ _).mp hpm) hc
    simp only [unlikeComment]
    rw [hp]
    simp

/-- C4, witness: the concrete never-liked scenario. -/
theorem c4_witness :
    unlikeTweet ⟨"t"⟩ "u" stateC4 = (.ok true, stateC4) ∧
    unlikeComment "c" "u" stateC4 = (.ok false, stateC4) :=
  c4_unlike_noop stateC4 "u" "t" "c" (by decide) (by decide)

/-- The Tweet node stored by createTweet: text, media and authorId as
supplied, creation timestamps from the clock, no counter properties. -/
def newTweetNode (text : String) (media : List String) (authorId : String)
    (s : GraphState) : TweetNode :=
  { id := uuid s.fresh, text := text, media := some media, authorId := authorId,
    likesCount := none, commentsCount := none, retweetsCount := none, isLiked := none,
    createdAt := nowDateTime s.now, updatedAt := nowDateTime s.now }

/-- No POSTED edge targets the given content id. -/
theorem pairMem_posted_false {s : GraphState} {cid : String}
    (hfresh : ∀ e ∈ s.posted, e.2 ≠ cid) (x : String) :
    pairMem s.posted (x, cid) = false := by
  cases h : pairMem s.posted (x, cid)
  · rfl
  · exact absurd rfl (hfresh _ ((pairMem_iff _ _).mp h))

/-- On a state whose posted list starts with the edge to a fresh content id
and otherwise never mentions that id, the author-lookup predicate of
fetchTweet coincides with a lookup by the author id. -/
theorem pairMem_fresh_cons {s : GraphState} {authorId cid : String}
    (hfresh : ∀ e ∈ s.posted, e.2 ≠ cid) (x : UserNode) :
    pairMem ((authorId, cid) :: s.posted) (x.id, cid) = decide (x.id = authorId) := by
  have hc : pairMem ((authorId, cid) :: s.posted) (x.id, cid)
      = (decide ((authorId, cid) = (x.id, cid)) || pairMem s.posted (x.id, cid)) := rfl
  rw [hc, pairMem_posted_false hfresh, Bool.or_false]
  exact decide_eq_decide.mpr (by simp [Prod.ext_iff, eq_comm])

/-- State for C7: one registered user. -/
def stateC7 : GraphState := { emptyState with users := [mkUser "u1"] }

/-- C7, counterexample: the claim allows every non-empty text, but the
whitespace-only text consisting of one space, which is non-empty, is
rejected by createTweet with INVALID_INPUT even though the author exists,
so no tweet is created at all. -/
theorem c7_counterexample :
    (" " : String) ≠ "" ∧ userExists stateC7 "u1" = true ∧
    createTweet " " [] "u1" stateC7 =
      (.error (.apollo "Tweet text cannot be empty" "INVALID_INPUT"), stateC7) := by
  refine ⟨by decide, by decide, rfl⟩

/-- C7 (amended): for text that is non-empty after trimming whitespace, any
media list and an existing author, createTweet succeeds and the returned
tweet carries the given text, media and authorId with all three counters 0;
fetchTweet of the new id on the resulting state returns that same tweet. -/
theorem c7_create_fetch_roundtrip (s : GraphState) (text : String) (media : List String)
    (authorId : String) (u : UserNode)
    (htext : ¬ jsTrim text = "")
    (hu : usersFindById s authorId = some u)
    (hfresh : ∀ e ∈ s.posted, e.2 ≠ uuid s.fresh) :
    ∃ tw s2, createTweet text media authorId s = (.ok tw, s2) ∧
      tw.id = uuid s.fresh ∧ tw.text = text ∧ tw.media = media ∧ tw.authorId = authorId ∧
      tw.likesCount = some 0 ∧ tw.commentsCount = some 0 ∧ tw.retweetsCount = some 0 ∧
      fetchTweet (uuid s.fresh) s2 = some tw := by
  refine ⟨mapTweet s.now (newTweetNode text media authorId s) u,
    { s with
       tweets := newTweetNode text media authorId s :: s.tweets
       posted := (authorId, uuid s.fresh) :: s.posted
       fresh := s.fresh + 1 }, ?_, rfl, rfl, rfl, rfl, rfl, rfl, rfl, ?_⟩
  · simp only [createTweet, newTweetNode]
    rw [if_neg htext, hu]
  · simp only [fetchTweet, tweetsFindById]
    rw [List.find?_cons_of_pos _ (by simp [newTweetNode])]
    rw [Option.some_bind]
    simp only [newTweetNode]
    rw [find?_ext _ (fun x : UserNode => decide (x.id = authorId))
      (fun x => pairMem_fresh_cons hfresh x) s.users]
    rw [show List.find? (fun x : UserNode => decide (x.id = authorId)) s.users = some u
      from hu]
    rfl

/-- C7, witness: the concrete create-then-fetch round trip. -/
theorem c7_witness :
    ∃ tw s2, createTweet "hello" [] "u1" stateC7 = (.ok tw, s2) ∧
      tw.id = uuid stateC7.fresh ∧ tw.text = "hello" ∧ tw.media = [] ∧ tw.authorId = "u1" ∧
      tw.likesCount = some 0 ∧ tw.commentsCount = some 0 ∧ tw.retweetsCount = some 0 ∧
      fetchTweet (uuid stateC7.fresh) s2 = some tw :=
  c7_create_fetch_roundtrip stateC7 "hello" [] "u1" (mkUser "u1")
    (by decide) rfl (by decide)

/-- The comment-count SET clause preserves tweet ids. -/
theorem bumpCommentsCount_id (tweetId : String) (t : TweetNode) :
    (bumpCommentsCount tweetId t).id = t.id := by
  by_cases h : t.id = tweetId <;> simp [bumpCommentsCount, h]

/-- C6: commentOnTweet on an existing tweet with an existing author creates
the Comment node (with the author's id as its authorId and the given text),
the POSTED edge from the author, the COMMENTS_ON edge to the tweet and the
commentsCount increment in one state transition (the single write
transaction of the source), and when the tweet carried no commentsCount
property before (a fresh tweet), the returned re-fetched tweet reports
commentsCount 1. -/
theorem c6_comment_transactional (s : GraphState) (text authorId tweetId : String)
    (t0 : TweetNode) (u0 : UserNode)
    (ht0 : tweetsFindById s tweetId = some t0)
    (hu0 : s.users.find? (fun x => pairMem s.posted (x.id, t0.id)) = some u0)
    (hauth : userExists s authorId = true)
    (hcount : ∀ t ∈ s.tweets, t.id = tweetId → t.commentsCount = none)
    (hfresh : uuid s.fresh ≠ tweetId) :
    ∃ res s2, commentOnTweet text authorId tweetId s = (.ok res, s2) ∧
      (∃ c, s2.comments = c :: s.comments ∧ c.id = uuid s.fresh ∧ c.text = text ∧
        c.authorId = authorId) ∧
      s2.posted = (authorId, uuid s.fresh) :: s.posted ∧
      s2.commentsOn = (uuid s.fresh, tweetId) :: s.commentsOn ∧
      (∃ tw, res = some tw ∧ tw.id = tweetId ∧ tw.commentsCount = some 1 ∧
        fetchTweet tweetId s2 = some tw) := by
  have hid : t0.id = tweetId := by simpa using List.find?_some ht0
  have hmem : t0 ∈ s.tweets := List.mem_of_find?_eq_some ht0
  have htex : tweetExists s tweetId = true := (tweetExists_iff s tweetId).mpr ⟨t0, hmem, hid⟩
  have hfetch : fetchTweet tweetId s = some (mapTweet s.now t0 u0) := by
    simp only [fetchTweet]
    rw [ht0, Option.some_bind, hu0, Option.map_some']
  refine ⟨fetchTweet tweetId
      { s with
         comments := ⟨uuid s.fresh, text, authorId, none, none, none,
           nowDateTime s.now, nowDateTime s.now⟩ :: s.comments
         posted := (authorId, uuid s.fresh) :: s.posted
         commentsOn := (uuid s.fresh, tweetId) :: s.commentsOn
         fresh := s.fresh + 1
         tweets := s.tweets.map (bumpCommentsCount tweetId) },
    { s with
       comments := ⟨uuid s.fresh, text, authorId, none, none, none,
         nowDateTime s.now, nowDateTime s.now⟩ :: s.comments
       posted := (authorId, uuid s.fresh) :: s.posted
       commentsOn := (uuid s.fresh, tweetId) :: s.commentsOn
       fresh := s.fresh + 1
       tweets := s.tweets.map (bumpCommentsCount tweetId) },
    ?_, ⟨_, rfl, rfl, rfl, rfl⟩, rfl, rfl, ?_⟩
  · have hcond : ¬ ((fetchTweet tweetId s).isSome = false) := by rw [hfetch]; simp
    have hcond2 : (userExists s authorId && tweetExists s tweetId) = true := by
      rw [hauth, htex]; rfl
    simp only [commentOnTweet]
    rw [if_neg hcond]
    simp only [hcond2, if_true]
  · -- re-fetch of the updated tweet
    have hfind2 : (s.tweets.map (bumpCommentsCount tweetId)).find?
        (fun t => decide (t.id = tweetId)) = some (bumpCommentsCount tweetId t0) := by
      rw [List.find?_map]
      rw [find?_ext _ (fun t : TweetNode => decide (t.id = tweetId))
        (fun x => by simp [Function.comp, bumpCommentsCount_id]) s.tweets]
      rw [show s.tweets.find? (fun t : TweetNode => decide (t.id = tweetId)) = some t0
        from ht0, Option.map_some']
    have hbump0 : bumpCommentsCount tweetId t0 = { t0 with commentsCount := some 1 } := by
      have hc0 : t0.commentsCount = none := hcount t0 hmem hid
      simp [bumpCommentsCount, hid, hc0]
    have hpred2 : ∀ x : UserNode,
        pairMem ((authorId, uuid s.fresh) :: s.posted)
          (x.id, (bumpCommentsCount tweetId t0).id)
          = pairMem s.posted (x.id, t0.id) := by
      intro x
      rw [bumpCommentsCount_id]
      have hstep : pairMem ((authorId, uuid s.fresh) :: s.posted) (x.id, t0.id)
          = (decide ((authorId, uuid s.fresh) = (x.id, t0.id))
              || pairMem s.posted (x.id, t0.id)) := rfl
      have hne : decide ((authorId, uuid s.fresh) = (x.id, t0.id)) = false := by
        apply decide_eq_false
        intro hpair
        have h2 : uuid s.fresh = t0.id := congrArg Prod.snd hpair
        exact hfresh (h2.trans hid)
      rw [hstep, hne, Bool.false_or]
    refine ⟨mapTweet s.now (bumpCommentsCount tweetId t0) u0, ?_, ?_, ?_, ?_⟩
    · simp only [fetchTweet, tweetsFindById]
      rw [hfind2, Option.some_bind]
      rw [find?_ext _ (fun x : UserNode => pairMem s.posted (x.id, t0.id)) hpred2 s.users]
      rw [show s.users.find? (fun x : UserNode => pairMem s.posted (x.id, t0.id)) = some u0
        from hu0, Option.map_some']
    · rw [show (mapTweet s.now (bumpCommentsCount tweetId t0) u0).id
        = (bumpCommentsCount tweetId t0).id from rfl, bumpCommentsCount_id, hid]
    · rw [hbump0]
      rfl
    · simp only [fetchTweet, tweetsFindById]
      rw [hfind2, Option.some_bind]
      rw [find?_ext _ (fun x : UserNode => pairMem s.posted (x.id, t0.id)) hpred2 s.users]
      rw [show s.users.find? (fun x : UserNode => pairMem s.posted (x.id, t0.id)) = some u0
        from hu0, Option.map_some']

/-- State for the C6 witness: u1 authored tweet t1, u2 is about to comment. -/
def stateC6 : GraphState :=
  { emptyState with
     users := [mkUser "u1", mkUser "u2"], tweets := [mkTweet "t1" "u1" 5],
     posted := [("u1", "t1")] }

/-- C6, witness: the concrete comment scenario of the spec (u2 comments
nice on u1's fresh tweet). -/
theorem c6_witness :
    ∃ res s2, commentOnTweet "nice" "u2" "t1" stateC6 = (.ok res, s2) ∧
      (∃ c, s2.comments = c :: stateC6.comments ∧ c.id = uuid stateC6.fresh ∧
        c.text = "nice" ∧ c.authorId = "u2") ∧
      s2.posted = ("u2", uuid stateC6.fresh) :: stateC6.posted ∧
      s2.commentsOn = (uuid stateC6.fresh, "t1") :: stateC6.commentsOn ∧
      (∃ tw, res = some tw ∧ tw.id = "t1" ∧ tw.commentsCount = some 1 ∧
        fetchTweet "t1" s2 = some tw) :=
  c6_comment_transactional stateC6 "nice" "u2" "t1" (mkTweet "t1" "u1" 5) (mkUser "u1")
    rfl rfl (by decide) (by decide) (by decide)

/-- Every record returned by listTweets carries the id of a stored tweet. -/
theorem listTweets_id_mem (s : GraphState) (r : TweetOut) (h : r ∈ listTweets s) :
    ∃ t ∈ s.tweets, r.id = t.id := by
  rw [listTweets, List.mem_map] at h
  obtain ⟨⟨t, u⟩, hrow, rfl⟩ := h
  rw [mem_sortByKeyDesc] at hrow
  obtain ⟨ht, _, _⟩ := mem_postedRows.mp hrow
  exact ⟨t, ht, rfl⟩

/-- Every record returned by listLikedTweets carries the id of a stored
tweet. -/
theorem listLikedTweets_id_mem (s : GraphState) (uid : String) (r : TweetOut)
    (h : r ∈ listLikedTweets uid s) : ∃ t ∈ s.tweets, r.id = t.id := by
  rw [listLikedTweets, List.mem_map] at h
  obtain ⟨⟨e, t, a⟩, hrow, rfl⟩ := h
  rw [mem_sortByKeyDesc] at hrow
  simp only [likedRows, List.mem_flatMap, List.mem_filter, List.mem_map,
    decide_eq_true_eq, Prod.mk.injEq] at hrow
  obtain ⟨u1, hu1, e2, he2, t2, ⟨ht2, ht2id⟩, pe, hpe, a2, ha2, rfl, rfl, rfl⟩ := hrow
  exact ⟨t2, ht2, rfl⟩

/-- C8: deleteTweet on an existing tweet removes the tweet node and every
relationship referencing it (POSTED, LIKES_TWEET, COMMENTS_ON all target
the node from outside, and no edge type leaves a Tweet), so the tweet no
longer appears in listTweets nor in any listLikedTweets result. -/
theorem c8_delete_detaches (s : GraphState) (tId : String)
    (h : tweetExists s tId = true) :
    ∃ s2, deleteTweet tId s = (.ok true, s2) ∧
      (∀ t ∈ s2.tweets, t.id ≠ tId) ∧
      (∀ e ∈ s2.posted, e.2 ≠ tId) ∧
      (∀ e ∈ s2.likesTweet, e.tweetId ≠ tId) ∧
      (∀ e ∈ s2.commentsOn, e.2 ≠ tId) ∧
      (∀ r ∈ listTweets s2, r.id ≠ tId) ∧
      (∀ uid : String, ∀ r ∈ listLikedTweets uid s2, r.id ≠ tId) := by
  refine ⟨{ s with
      posted := s.posted.filter (fun e => !decide (e.2 = tId))
      likesTweet := s.likesTweet.filter (fun e => !decide (e.tweetId = tId))
      commentsOn := s.commentsOn.filter (fun e => !decide (e.2 = tId))
      tweets := s.tweets.filter (fun t => !decide (t.id = tId)) },
    ?_, ?_, ?_, ?_, ?_, ?_, ?_⟩
  · simp only [deleteTweet, h, eq_self_iff_true, if_true]
  · intro t ht
    rw [List.mem_filter] at ht
    simpa using ht.2
  · intro e he
    rw [List.mem_filter] at he
    simpa using he.2
  · intro e he
    rw [List.mem_filter] at he
    simpa using he.2
  · intro e he
    rw [List.mem_filter] at he
    simpa using he.2
  · intro r hr
    obtain ⟨t, ht, hid⟩ := listTweets_id_mem _ r hr
    rw [List.mem_filter] at ht
    rw [hid]
    simpa using ht.2
  · intro uid r hr
    obtain ⟨t, ht, hid⟩ := listLikedTweets_id_mem _ uid r hr
    rw [List.mem_filter] at ht
    rw [hid]
    simpa using ht.2

/-- State for the C8 witness: u1 authored t1, u2 liked it and commented on
it. -/
def stateC8 : GraphState :=
  { emptyState with
     users := [mkUser "u1", mkUser "u2"], tweets := [mkTweet "t1" "u1" 5],
     comments := [mkComment "c1" "u2"],
     posted := [("u1", "t1"), ("u2", "c1")],
     likesTweet := [⟨"u2", "t1", nowDateTime 7⟩],
     commentsOn := [("c1", "t1")] }

/-- C8, witness: the concrete deletion scenario. -/
theorem c8_witness :
    ∃ s2, deleteTweet "t1" stateC8 = (.ok true, s2) ∧
      (∀ t ∈ s2.tweets, t.id ≠ "t1") ∧
      (∀ e ∈ s2.posted, e.2 ≠ "t1") ∧
      (∀ e ∈ s2.likesTweet, e.tweetId ≠ "t1") ∧
      (∀ e ∈ s2.commentsOn, e.2 ≠ "t1") ∧
      (∀ r ∈ listTweets s2, r.id ≠ "t1") ∧
      (∀ uid : String, ∀ r ∈ listLikedTweets uid s2, r.id ≠ "t1") :=
  c8_delete_detaches stateC8 "t1" (by decide)

/-- A stored date value that is not an Invalid-Date JS object (the store
never hands the driver an invalid Date instance). -/
def dateOk : StoreDate → Bool
  | .dateVal d => d.valid
  | _ => true

/-- All date properties of the stored tweet and user nodes are dateOk. -/
def storedDatesOk (s : GraphState) : Prop :=
  (∀ t ∈ s.tweets, dateOk t.createdAt = true ∧ dateOk t.updatedAt = true) ∧
  (∀ u ∈ s.users, dateOk u.createdAt = true ∧ dateOk u.updatedAt = true)

/-- safeParseDate always yields a valid Date on dateOk input: the
current-time fallback replaces every parse failure. -/
theorem safeParseDate_valid (now : Int) (sd : StoreDate) (h : dateOk sd = true) :
    (safeParseDate now sd).valid = true := by
  cases sd with
  | nullVal => rfl
  | dateVal d => simpa [safeParseDate, dateOk] using h
  | native y m d hh mi ss ms => rfl
  | strVal p ts =>
      simp only [safeParseDate]
      split <;> rfl

/-- State for the C9 counterexample: the stored tweet's createdAt is an
unparseable string. -/
def stateC9 : GraphState :=
  { emptyState with
     users := [mkUser "u"],
     tweets := [{ mkTweet "t" "u" 5 with createdAt := .strVal false 0 }],
     posted := [("u", "t")] }

/-- C9, counterexample: the claim covers every TweetService read operation,
but listTweets maps dates with the raw Date constructor instead of
safeParseDate: on a tweet whose stored createdAt is an unparseable string
it returns an Invalid Date, while the normalization the claim describes
would fall back to the current time. -/
theorem c9_counterexample :
    (listTweets stateC9).map (fun r => r.createdAt) = [⟨false, 0⟩] ∧
    safeParseDate stateC9.now (.strVal false 0) = ⟨true, stateC9.now⟩ ∧
    (JsDate.mk false 0) ≠ ⟨true, stateC9.now⟩ := by
  refine ⟨rfl, rfl, by decide⟩

/-- C9 (amended): fetchTweet (the mapTweet path) normalizes every date
field through safeParseDate, so every date it returns is a valid Date, with
parse failures replaced by the current time; the four list operations
instead apply the raw Date constructor to the stored values and can return
an Invalid Date (no current-time fallback). -/
theorem c9_date_normalization (s : GraphState) (id : String) (tw : TweetOut)
    (hok : storedDatesOk s) (h : fetchTweet id s = some tw) :
    tw.createdAt.valid = true ∧ tw.updatedAt.valid = true ∧
    tw.author.createdAt.valid = true ∧ tw.author.updatedAt.valid = true := by
  simp only [fetchTweet] at h
  cases e1 : tweetsFindById s id with
  | none => rw [e1] at h; simp at h
  | some t =>
    rw [e1, Option.some_bind] at h
    cases e2 : s.users.find? (fun u => pairMem s.posted (u.id, t.id)) with
    | none => rw [e2] at h; simp at h
    | some u =>
      rw [e2, Option.map_some'] at h
      have htm : t ∈ s.tweets := List.mem_of_find?_eq_some e1
      have hum : u ∈ s.users := List.mem_of_find?_eq_some e2
      obtain ⟨hokT, hokU⟩ := hok
      obtain ⟨h1, h2⟩ := hokT t htm
      obtain ⟨h3, h4⟩ := hokU u hum
      have htw : mapTweet s.now t u = tw := Option.some.inj h
      subst htw
      exact ⟨safeParseDate_valid _ _ h1, safeParseDate_valid _ _ h2,
        safeParseDate_valid _ _ h3, safeParseDate_valid _ _ h4⟩

/-- State for the C9 witness. -/
def stateC9w : GraphState :=
  { emptyState with
     users := [mkUser "u"], tweets := [mkTweet "t" "u" 5], posted := [("u", "t")] }

/-- C9, witness: a concrete fetch whose four date fields are all valid. -/
theorem c9_witness :
    (mapTweet stateC9w.now (mkTweet "t" "u" 5) (mkUser "u")).createdAt.valid = true ∧
    (mapTweet stateC9w.now (mkTweet "t" "u" 5) (mkUser "u")).updatedAt.valid = true ∧
    (mapTweet stateC9w.now (mkTweet "t" "u" 5) (mkUser "u")).author.createdAt.valid = true ∧
    (mapTweet stateC9w.now (mkTweet "t" "u" 5) (mkUser "u")).author.updatedAt.valid = true :=
  c9_date_normalization stateC9w "t" _ (by constructor <;> decide) rfl

/-- likeComment either leaves the state unchanged or only prepends a
LIKES_COMMENT edge. -/
theorem likeComment_state (s : GraphState) (cId uId : String) :
    (likeComment cId uId s).2 = s ∨
    (likeComment cId uId s).2 = { s with likesComment := (uId, cId) :: s.likesComment } := by
  simp only [likeComment]
  split
  · exact Or.inl rfl
  split
  · exact Or.inr rfl
  · exact Or.inl rfl

/-- unlikeComment either leaves the state unchanged or only filters the
LIKES_COMMENT edge list. -/
theorem unlikeComment_state (s : GraphState) (cId uId : String) :
    (unlikeComment cId uId s).2 = s ∨
    (unlikeComment cId uId s).2 =
      { s with likesComment :=
          s.likesComment.filter (fun e => !decide (e = (uId, cId))) } := by
  simp only [unlikeComment]
  split
  · exact Or.inr rfl
  · exact Or.inl rfl

/-- C10: comment like state is read-aggregated.  likeComment and
unlikeComment never touch the comment, tweet, user or non-like edge lists
(in particular no likesCount property is written on any Comment node), and
the likesCount field of every record returned by getCommentsForTweet equals
the count of LIKES_COMMENT edge instances into that comment in the raw
state. -/
theorem c10_comment_likes_read_aggregated (s : GraphState) (cId uId tId : String)
    (viewer : Option String) :
    ((likeComment cId uId s).2.comments = s.comments ∧
     (likeComment cId uId s).2.tweets = s.tweets ∧
     (likeComment cId uId s).2.users = s.users ∧
     (likeComment cId uId s).2.posted = s.posted ∧
     (likeComment cId uId s).2.commentsOn = s.commentsOn ∧
     (likeComment cId uId s).2.follows = s.follows) ∧
    ((unlikeComment cId uId s).2.comments = s.comments ∧
     (unlikeComment cId uId s).2.tweets = s.tweets ∧
     (unlikeComment cId uId s).2.users = s.users ∧
     (unlikeComment cId uId s).2.posted = s.posted ∧
     (unlikeComment cId uId s).2.commentsOn = s.commentsOn ∧
     (unlikeComment cId uId s).2.follows = s.follows) ∧
    (∀ r ∈ getCommentsForTweet tId viewer s, r.likesCount = commentLikeCount s r.id) := by
  refine ⟨?_, ?_, ?_⟩
  · rcases likeComment_state s cId uId with h | h <;> rw [h] <;>
      exact ⟨rfl, rfl, rfl, rfl, rfl, rfl⟩
  · rcases unlikeComment_state s cId uId with h | h <;> rw [h] <;>
      exact ⟨rfl, rfl, rfl, rfl, rfl, rfl⟩
  · intro r hr
    rw [getCommentsForTweet, List.mem_map] at hr
    obtain ⟨⟨c, u⟩, hrow, rfl⟩ := hr
    rfl

/-- State for the C10 witness: u2's comment c1 on t1, liked once by u1. -/
def stateC10 : GraphState :=
  { emptyState with
     users := [mkUser "u1", mkUser "u2"], tweets := [mkTweet "t1" "u1" 5],
     comments := [mkComment "c1" "u2"],
     posted := [("u1", "t1"), ("u2", "c1")],
     commentsOn := [("c1", "t1")],
     likesComment := [("u1", "c1")] }

/-- C10, witness: the state-preservation and read-aggregation facts at the
concrete one-like state. -/
theorem c10_witness :
    (likeComment "c1" "u1" stateC10).2.comments = stateC10.comments ∧
    (unlikeComment "c1" "u1" stateC10).2.comments = stateC10.comments ∧
    ∀ r ∈ getCommentsForTweet "t1" (some "u1") stateC10,
      r.likesCount = commentLikeCount stateC10 r.id :=
  ⟨(c10_comment_likes_read_aggregated stateC10 "c1" "u1" "t1" (some "u1")).1.1,
   (c10_comment_likes_read_aggregated stateC10 "c1" "u1" "t1" (some "u1")).2.1.1,
   (c10_comment_likes_read_aggregated stateC10 "c1" "u1" "t1" (some "u1")).2.2⟩

end WeShare
